import Mathlib

/-!
Verification of the rule-evaluation engine of the ad-spend anomaly
detector (src/app.py, `run_logic_checks`).

Python numeric values (floats and ints supplied through the metrics
dictionary) are modelled as rationals (`ℚ`): every finite Python numeric
literal appearing in the engine (5000, 1.2, 1.5, 0.5) is exactly
representable, and the engine performs only comparisons and a few
multiplications, so `ℚ` is a faithful model of the arithmetic on
well-formed (finite) inputs.
-/

/-- Shape of the `metrics` dictionary consumed by `run_logic_checks`.
Field names follow the keys read by the source
(`spend_last_4h`, `conv_last_4h`, `daily_spend`, `daily_budget`,
`current_cpm`, `avg_cpm`, `current_ctr`, `avg_ctr`). -/
structure Metrics where
  spend_last_4h : ℚ
  conv_last_4h : ℚ
  daily_spend : ℚ
  daily_budget : ℚ
  current_cpm : ℚ
  avg_cpm : ℚ
  current_ctr : ℚ
  avg_ctr : ℚ
deriving DecidableEq, Repr

/-- Alert record appended by the engine: the five string-keyed fields of
each dictionary in the source (`Tier`, `Rule`, `Severity`, `Message`,
`Action`). -/
structure Alert where
  Tier : String
  Rule : String
  Severity : String
  Message : String
  Action : String
deriving DecidableEq, Repr

/-- Two-digit zero padding, used for the fractional part of a fixed
two-decimal rendering. -/
def pad2 (n : Nat) : String :=
  if n < 10 then "0" ++ toString n else toString n

/-- Three-digit zero padding for thousands groups. -/
def pad3 (n : Nat) : String :=
  if n < 10 then "00" ++ toString n
  else if n < 100 then "0" ++ toString n
  else toString n

/-- Structural worker for `commaSep`: the fuel argument only bounds the
recursion depth (any fuel of at least the digit count of `n` gives the
same result). -/
def commaSepAux : Nat → Nat → String
  | 0, n => toString n
  | fuel + 1, n =>
    if n < 1000 then toString n
    else commaSepAux fuel (n / 1000) ++ "," ++ pad3 (n % 1000)

/-- Decimal rendering of a natural number with `,` thousands separators,
as produced by Python's `,` format flag. -/
def commaSep (n : Nat) : String := commaSepAux n n

/-- Model of Python's `{:.2f}` format: round to two decimal places and
print with exactly two fractional digits.  (Rounding of exact halves is
modelled with `round`; the engine's claims do not depend on the
tie-breaking direction.) -/
def fmt2 (q : ℚ) : String :=
  let n : ℤ := round (q * 100)
  (if n < 0 then "-" else "")
    ++ toString (n.natAbs / 100) ++ "." ++ pad2 (n.natAbs % 100)

/-- Model of Python's `{:,.2f}` format: like `fmt2` with thousands
separators in the integer part. -/
def fmtComma2 (q : ℚ) : String :=
  let n : ℤ := round (q * 100)
  (if n < 0 then "-" else "")
    ++ commaSep (n.natAbs / 100) ++ "." ++ pad2 (n.natAbs % 100)

/-- Model of Python's plain `str()` interpolation (used for
`daily_budget` in the Rule B message). -/
def fmtRepr (q : ℚ) : String := toString q

/-- Alert appended by Rule A (Zero Conversions), src/app.py lines 110-116. -/
def ruleAAlert (metrics : Metrics) : Alert :=
  { Tier := "Tier 1: Kill Switch"
    Rule := "Rule A (Zero Conversions)"
    Severity := "Critical (P0)"
    Message := "ZERO conversions in last 4h despite spending ₹"
      ++ fmtComma2 metrics.spend_last_4h ++ "."
    Action := "Check Landing Page / Pixel" }

/-- Alert appended by Rule B (Pacing Breach), src/app.py lines 122-128. -/
def ruleBAlert (metrics : Metrics) : Alert :=
  { Tier := "Tier 1: Kill Switch"
    Rule := "Rule B (Pacing Breach)"
    Severity := "Critical (P0)"
    Message := "Daily spend ₹" ++ fmtComma2 metrics.daily_spend
      ++ " exceeded budget limit (₹" ++ fmtRepr metrics.daily_budget
      ++ ") by >20%."
    Action := "Pause Campaign / Check Bids" }

/-- Alert appended by Rule C (CPM Spike), src/app.py lines 135-141. -/
def ruleCAlert (metrics : Metrics) : Alert :=
  { Tier := "Tier 2: Trend Watch"
    Rule := "Rule C (CPM Spike)"
    Severity := "High (P1)"
    Message := "Current CPM (₹" ++ fmt2 metrics.current_cpm
      ++ ") is >50% above average (₹" ++ fmt2 metrics.avg_cpm ++ ")."
    Action := "Check Auction Competition" }

/-- Alert appended by Rule D (CTR Drop), src/app.py lines 146-152. -/
def ruleDAlert (metrics : Metrics) : Alert :=
  { Tier := "Tier 2: Trend Watch"
    Rule := "Rule D (CTR Drop)"
    Severity := "Medium (P2)"
    Message := "Current CTR (" ++ fmt2 metrics.current_ctr
      ++ "%) dropped >50% below average (" ++ fmt2 metrics.avg_ctr
      ++ "%)."
    Action := "Check Creative Fatigue" }

/-- The logic engine, src/app.py lines 99-154: starts from an empty
alert list and independently appends one alert per satisfied rule, in
source order A, B, C, D. -/
def run_logic_checks (metrics : Metrics) : List Alert :=
  let alerts : List Alert := []
  let alerts := if metrics.spend_last_4h > 5000 ∧ metrics.conv_last_4h = 0
    then alerts ++ [ruleAAlert metrics] else alerts
  let limit := metrics.daily_budget * 1.2
  let alerts := if metrics.daily_spend > limit
    then alerts ++ [ruleBAlert metrics] else alerts
  let alerts := if metrics.current_cpm > metrics.avg_cpm * 1.5
    then alerts ++ [ruleCAlert metrics] else alerts
  let alerts := if metrics.current_ctr < metrics.avg_ctr * 0.5
    then alerts ++ [ruleDAlert metrics] else alerts
  alerts

/-- State-passing rendering of the same engine: the second component of
the result is the metrics record as the call leaves it.  The source only
reads the `metrics` dictionary (it never assigns to it), and the local
`alerts` list is freshly created per call, so the final state is the
input binding itself. -/
def run_logic_checks_st (metrics : Metrics) : List Alert × Metrics :=
  let alerts : List Alert := []
  let alerts := if metrics.spend_last_4h > 5000 ∧ metrics.conv_last_4h = 0
    then alerts ++ [ruleAAlert metrics] else alerts
  let alerts := if metrics.daily_spend > metrics.daily_budget * 1.2
    then alerts ++ [ruleBAlert metrics] else alerts
  let alerts := if metrics.current_cpm > metrics.avg_cpm * 1.5
    then alerts ++ [ruleCAlert metrics] else alerts
  let alerts := if metrics.current_ctr < metrics.avg_ctr * 0.5
    then alerts ++ [ruleDAlert metrics] else alerts
  (alerts, metrics)

/-- Characterisation of membership in the engine's output: an alert is
returned exactly when it is the alert of one of the four rules and that
rule's trigger condition holds. -/
lemma mem_run_iff (m : Metrics) (a : Alert) :
    a ∈ run_logic_checks m ↔
      ((m.spend_last_4h > 5000 ∧ m.conv_last_4h = 0) ∧ a = ruleAAlert m) ∨
      (m.daily_spend > m.daily_budget * 1.2 ∧ a = ruleBAlert m) ∨
      (m.current_cpm > m.avg_cpm * 1.5 ∧ a = ruleCAlert m) ∨
      (m.current_ctr < m.avg_ctr * 0.5 ∧ a = ruleDAlert m) := by
  by_cases h1 : m.spend_last_4h > 5000 ∧ m.conv_last_4h = 0 <;>
  by_cases h2 : m.daily_spend > m.daily_budget * 1.2 <;>
  by_cases h3 : m.current_cpm > m.avg_cpm * 1.5 <;>
  by_cases h4 : m.current_ctr < m.avg_ctr * 0.5 <;>
  simp [run_logic_checks, h1, h2, h3, h4]

/-- Rule A fires (an alert with Rule A's identifier is returned) exactly
on its trigger condition. -/
lemma hasRuleA_iff (m : Metrics) :
    (∃ a ∈ run_logic_checks m, a.Rule = "Rule A (Zero Conversions)") ↔
      m.spend_last_4h > 5000 ∧ m.conv_last_4h = 0 := by
  constructor
  · rintro ⟨a, ha, hr⟩
    rcases (mem_run_iff m a).1 ha with ⟨hc, rfl⟩ | ⟨hc, rfl⟩ | ⟨hc, rfl⟩ | ⟨hc, rfl⟩
    · exact hc
    · simp [ruleBAlert] at hr
    · simp [ruleCAlert] at hr
    · simp [ruleDAlert] at hr
  · intro hc
    exact ⟨ruleAAlert m, (mem_run_iff m (ruleAAlert m)).2 (Or.inl ⟨hc, rfl⟩), rfl⟩

/-- Rule B fires exactly on its trigger condition. -/
lemma hasRuleB_iff (m : Metrics) :
    (∃ a ∈ run_logic_checks m, a.Rule = "Rule B (Pacing Breach)") ↔
      m.daily_spend > m.daily_budget * 1.2 := by
  constructor
  · rintro ⟨a, ha, hr⟩
    rcases (mem_run_iff m a).1 ha with ⟨hc, rfl⟩ | ⟨hc, rfl⟩ | ⟨hc, rfl⟩ | ⟨hc, rfl⟩
    · simp [ruleAAlert] at hr
    · exact hc
    · simp [ruleCAlert] at hr
    · simp [ruleDAlert] at hr
  · intro hc
    exact ⟨ruleBAlert m, (mem_run_iff m (ruleBAlert m)).2 (Or.inr (Or.inl ⟨hc, rfl⟩)), rfl⟩

/-- Rule C fires exactly on its trigger condition. -/
lemma hasRuleC_iff (m : Metrics) :
    (∃ a ∈ run_logic_checks m, a.Rule = "Rule C (CPM Spike)") ↔
      m.current_cpm > m.avg_cpm * 1.5 := by
  constructor
  · rintro ⟨a, ha, hr⟩
    rcases (mem_run_iff m a).1 ha with ⟨hc, rfl⟩ | ⟨hc, rfl⟩ | ⟨hc, rfl⟩ | ⟨hc, rfl⟩
    · simp [ruleAAlert] at hr
    · simp [ruleBAlert] at hr
    · exact hc
    · simp [ruleDAlert] at hr
  · intro hc
    exact ⟨ruleCAlert m,
      (mem_run_iff m (ruleCAlert m)).2 (Or.inr (Or.inr (Or.inl ⟨hc, rfl⟩))), rfl⟩

/-- Rule D fires exactly on its trigger condition. -/
lemma hasRuleD_iff (m : Metrics) :
    (∃ a ∈ run_logic_checks m, a.Rule = "Rule D (CTR Drop)") ↔
      m.current_ctr < m.avg_ctr * 0.5 := by
  constructor
  · rintro ⟨a, ha, hr⟩
    rcases (mem_run_iff m a).1 ha with ⟨hc, rfl⟩ | ⟨hc, rfl⟩ | ⟨hc, rfl⟩ | ⟨hc, rfl⟩
    · simp [ruleAAlert] at hr
    · simp [ruleBAlert] at hr
    · simp [ruleCAlert] at hr
    · exact hc
  · intro hc
    exact ⟨ruleDAlert m,
      (mem_run_iff m (ruleDAlert m)).2 (Or.inr (Or.inr (Or.inr ⟨hc, rfl⟩))), rfl⟩

/-- Concrete bundle of §8 scenario 1: only Rule A's threshold crossed. -/
def bundleA : Metrics := ⟨6000, 0, 40000, 50000, 100, 100, 2, 2⟩

/-- Concrete bundle of §8 scenario 2: only Rule B's threshold crossed. -/
def bundleB : Metrics := ⟨100, 5, 61000, 50000, 100, 100, 2, 2⟩

/-- Concrete bundle of §8 scenario 3: only Rule C's threshold crossed. -/
def bundleC : Metrics := ⟨100, 5, 1000, 50000, 160, 100, 2, 2⟩

/-- Concrete bundle of §8 scenario 4: only Rule D's threshold crossed. -/
def bundleD : Metrics := ⟨100, 5, 1000, 50000, 100, 100, 9/10, 2⟩

/-- Concrete bundle crossing all four thresholds simultaneously. -/
def bundleAll : Metrics := ⟨6000, 0, 61000, 50000, 160, 100, 9/10, 2⟩

/-- Concrete all-nominal bundle: no threshold crossed. -/
def bundleNone : Metrics := ⟨100, 5, 1000, 50000, 100, 100, 2, 2⟩

/-- Concrete degenerate bundle: both baselines (`avg_cpm`, `avg_ctr`)
are zero. -/
def bundleDeg : Metrics := ⟨100, 5, 1000, 50000, 1, 0, 2, 0⟩

/-- C1: a Rule A alert is returned iff `spend_last_4h > 5000` and
`conversions_last_4h == 0`; consequently no Rule A alert appears for any
bundle with positive conversions; and every returned Rule A alert
carries tier "Tier 1: Kill Switch" and Critical (P0) severity. -/
theorem ruleA_fires_iff (m : Metrics) :
    ((∃ a ∈ run_logic_checks m, a.Rule = "Rule A (Zero Conversions)") ↔
      m.spend_last_4h > 5000 ∧ m.conv_last_4h = 0) ∧
    (m.conv_last_4h > 0 →
      ¬∃ a ∈ run_logic_checks m, a.Rule = "Rule A (Zero Conversions)") ∧
    (∀ a ∈ run_logic_checks m, a.Rule = "Rule A (Zero Conversions)" →
      a.Tier = "Tier 1: Kill Switch" ∧ a.Severity = "Critical (P0)") := by
  refine ⟨hasRuleA_iff m, ?_, ?_⟩
  · intro hpos h
    rw [hasRuleA_iff] at h
    exact absurd h.2 (ne_of_gt hpos)
  · intro a ha hr
    rcases (mem_run_iff m a).1 ha with ⟨_, rfl⟩ | ⟨_, rfl⟩ | ⟨_, rfl⟩ | ⟨_, rfl⟩
    · exact ⟨rfl, rfl⟩
    · simp [ruleBAlert] at hr
    · simp [ruleCAlert] at hr
    · simp [ruleDAlert] at hr

/-- C1 witness: scenario-1 bundle makes Rule A fire. -/
theorem ruleA_fires_iff_witness :
    ∃ a ∈ run_logic_checks bundleA, a.Rule = "Rule A (Zero Conversions)" :=
  (ruleA_fires_iff bundleA).1.mpr (by decide)

/-- C2: a Rule B alert is returned iff `daily_spend > daily_budget * 1.2`;
the comparison is strict, so spend at or below 1.2 times the budget never
fires Rule B. -/
theorem ruleB_fires_iff (m : Metrics) :
    ((∃ a ∈ run_logic_checks m, a.Rule = "Rule B (Pacing Breach)") ↔
      m.daily_spend > m.daily_budget * 1.2) ∧
    (m.daily_spend ≤ m.daily_budget * 1.2 →
      ¬∃ a ∈ run_logic_checks m, a.Rule = "Rule B (Pacing Breach)") := by
  refine ⟨hasRuleB_iff m, ?_⟩
  intro hle h
  rw [hasRuleB_iff] at h
  exact absurd h (not_lt.mpr hle)

/-- C2 witness: the engine fires Rule B at a spend of 61000 against a
budget of 50000, and does not fire it at the exact 1.2 boundary. -/
theorem ruleB_fires_iff_witness :
    (∃ a ∈ run_logic_checks bundleB, a.Rule = "Rule B (Pacing Breach)") ∧
    ¬∃ a ∈ run_logic_checks ⟨100, 5, 60000, 50000, 100, 100, 2, 2⟩,
      a.Rule = "Rule B (Pacing Breach)" :=
  ⟨(ruleB_fires_iff bundleB).1.mpr (by norm_num [bundleB]),
   (ruleB_fires_iff ⟨100, 5, 60000, 50000, 100, 100, 2, 2⟩).2 (by norm_num)⟩

/-- C3: a Rule C alert is returned iff `current_cpm > average_cpm * 1.5`,
and every returned Rule C alert's diagnosis message embeds the rendered
`current_cpm` and `average_cpm` values that were compared. -/
theorem ruleC_fires_iff (m : Metrics) :
    ((∃ a ∈ run_logic_checks m, a.Rule = "Rule C (CPM Spike)") ↔
      m.current_cpm > m.avg_cpm * 1.5) ∧
    (∀ a ∈ run_logic_checks m, a.Rule = "Rule C (CPM Spike)" →
      ∃ s₁ s₂ s₃, a.Message =
        s₁ ++ fmt2 m.current_cpm ++ s₂ ++ fmt2 m.avg_cpm ++ s₃) := by
  refine ⟨hasRuleC_iff m, ?_⟩
  intro a ha hr
  rcases (mem_run_iff m a).1 ha with ⟨_, rfl⟩ | ⟨_, rfl⟩ | ⟨_, rfl⟩ | ⟨_, rfl⟩
  · simp [ruleAAlert] at hr
  · simp [ruleBAlert] at hr
  · exact ⟨"Current CPM (₹", ") is >50% above average (₹", ").", rfl⟩
  · simp [ruleDAlert] at hr

/-- C3 witness: scenario-3 bundle makes Rule C fire, and the returned
alert's message embeds both rendered CPM values. -/
theorem ruleC_fires_iff_witness :
    ∃ a, (a ∈ run_logic_checks bundleC ∧ a.Rule = "Rule C (CPM Spike)") ∧
      ∃ s₁ s₂ s₃, a.Message =
        s₁ ++ fmt2 bundleC.current_cpm ++ s₂ ++ fmt2 bundleC.avg_cpm ++ s₃ := by
  obtain ⟨a, ha, hr⟩ := (ruleC_fires_iff bundleC).1.mpr (by norm_num [bundleC])
  exact ⟨a, ⟨ha, hr⟩, (ruleC_fires_iff bundleC).2 a ha hr⟩

/-- C4: a Rule D alert is returned iff `current_ctr < average_ctr * 0.5`,
and every returned Rule D alert carries tier "Tier 2: Trend Watch" and
Medium (P2) severity. -/
theorem ruleD_fires_iff (m : Metrics) :
    ((∃ a ∈ run_logic_checks m, a.Rule = "Rule D (CTR Drop)") ↔
      m.current_ctr < m.avg_ctr * 0.5) ∧
    (∀ a ∈ run_logic_checks m, a.Rule = "Rule D (CTR Drop)" →
      a.Tier = "Tier 2: Trend Watch" ∧ a.Severity = "Medium (P2)") := by
  refine ⟨hasRuleD_iff m, ?_⟩
  intro a ha hr
  rcases (mem_run_iff m a).1 ha with ⟨_, rfl⟩ | ⟨_, rfl⟩ | ⟨_, rfl⟩ | ⟨_, rfl⟩
  · simp [ruleAAlert] at hr
  · simp [ruleBAlert] at hr
  · simp [ruleCAlert] at hr
  · exact ⟨rfl, rfl⟩

/-- C4 witness: scenario-4 bundle makes Rule D fire. -/
theorem ruleD_fires_iff_witness :
    ∃ a ∈ run_logic_checks bundleD, a.Rule = "Rule D (CTR Drop)" :=
  (ruleD_fires_iff bundleD).1.mpr (by norm_num [bundleD])

/-- C5: the sequence of rule identifiers of the returned alerts is a
subsequence of the fixed order A, B, C, D, and no Tier 2 alert ever
precedes a Tier 1 alert. -/
theorem alerts_ordered (m : Metrics) :
    ((run_logic_checks m).map Alert.Rule).Sublist
      ["Rule A (Zero Conversions)", "Rule B (Pacing Breach)",
       "Rule C (CPM Spike)", "Rule D (CTR Drop)"] ∧
    ((run_logic_checks m).map Alert.Tier).Pairwise
      (fun s t => ¬(s = "Tier 2: Trend Watch" ∧ t = "Tier 1: Kill Switch")) := by
  by_cases h1 : m.spend_last_4h > 5000 ∧ m.conv_last_4h = 0 <;>
  by_cases h2 : m.daily_spend > m.daily_budget * 1.2 <;>
  by_cases h3 : m.current_cpm > m.avg_cpm * 1.5 <;>
  by_cases h4 : m.current_ctr < m.avg_ctr * 0.5 <;>
  refine ⟨?_, ?_⟩ <;>
  simp [run_logic_checks, h1, h2, h3, h4,
    ruleAAlert, ruleBAlert, ruleCAlert, ruleDAlert]

/-- C5 witness: the ordering facts instantiated at the bundle that
crosses all four thresholds. -/
theorem alerts_ordered_witness :
    ((run_logic_checks bundleAll).map Alert.Rule).Sublist
      ["Rule A (Zero Conversions)", "Rule B (Pacing Breach)",
       "Rule C (CPM Spike)", "Rule D (CTR Drop)"] ∧
    ((run_logic_checks bundleAll).map Alert.Tier).Pairwise
      (fun s t => ¬(s = "Tier 2: Trend Watch" ∧ t = "Tier 1: Kill Switch")) :=
  alerts_ordered bundleAll

/-- C6: the rules are independent: the output carries exactly one alert
per satisfied trigger (counted by rule identifier), its length is the
number of satisfied triggers, a bundle satisfying all four conditions
yields exactly the four alerts in order A, B, C, D, and a bundle
satisfying none yields the empty list. -/
theorem alerts_independent (m : Metrics) :
    (((run_logic_checks m).map Alert.Rule).count "Rule A (Zero Conversions)" =
      if m.spend_last_4h > 5000 ∧ m.conv_last_4h = 0 then 1 else 0) ∧
    (((run_logic_checks m).map Alert.Rule).count "Rule B (Pacing Breach)" =
      if m.daily_spend > m.daily_budget * 1.2 then 1 else 0) ∧
    (((run_logic_checks m).map Alert.Rule).count "Rule C (CPM Spike)" =
      if m.current_cpm > m.avg_cpm * 1.5 then 1 else 0) ∧
    (((run_logic_checks m).map Alert.Rule).count "Rule D (CTR Drop)" =
      if m.current_ctr < m.avg_ctr * 0.5 then 1 else 0) ∧
    ((run_logic_checks m).length =
      (if m.spend_last_4h > 5000 ∧ m.conv_last_4h = 0 then 1 else 0) +
      (if m.daily_spend > m.daily_budget * 1.2 then 1 else 0) +
      (if m.current_cpm > m.avg_cpm * 1.5 then 1 else 0) +
      (if m.current_ctr < m.avg_ctr * 0.5 then 1 else 0)) ∧
    (m.spend_last_4h > 5000 ∧ m.conv_last_4h = 0 →
      m.daily_spend > m.daily_budget * 1.2 →
      m.current_cpm > m.avg_cpm * 1.5 →
      m.current_ctr < m.avg_ctr * 0.5 →
      run_logic_checks m = [ruleAAlert m, ruleBAlert m, ruleCAlert m, ruleDAlert m]) ∧
    (¬(m.spend_last_4h > 5000 ∧ m.conv_last_4h = 0) →
      ¬(m.daily_spend > m.daily_budget * 1.2) →
      ¬(m.current_cpm > m.avg_cpm * 1.5) →
      ¬(m.current_ctr < m.avg_ctr * 0.5) →
      run_logic_checks m = []) := by
  by_cases h1 : m.spend_last_4h > 5000 ∧ m.conv_last_4h = 0 <;>
  by_cases h2 : m.daily_spend > m.daily_budget * 1.2 <;>
  by_cases h3 : m.current_cpm > m.avg_cpm * 1.5 <;>
  by_cases h4 : m.current_ctr < m.avg_ctr * 0.5 <;>
  simp [run_logic_checks, h1, h2, h3, h4,
    ruleAAlert, ruleBAlert, ruleCAlert, ruleDAlert]

/-- C6 witness: the all-thresholds bundle returns exactly the four
alerts in order A, B, C, D. -/
theorem alerts_independent_witness :
    run_logic_checks bundleAll =
      [ruleAAlert bundleAll, ruleBAlert bundleAll,
       ruleCAlert bundleAll, ruleDAlert bundleAll] :=
  (alerts_independent bundleAll).2.2.2.2.2.1
    (by norm_num [bundleAll]) (by norm_num [bundleAll])
    (by norm_num [bundleAll]) (by norm_num [bundleAll])

/-- C7: the engine is deterministic and side-effect-free: two calls on
deep-equal bundles return equal alert lists, and the state-passing
rendering shows a call leaves the bundle unchanged (the alert list being
freshly built per call). -/
theorem engine_deterministic (m₁ m₂ : Metrics) (h : m₁ = m₂) :
    run_logic_checks m₁ = run_logic_checks m₂ ∧
    run_logic_checks_st m₁ = (run_logic_checks m₂, m₂) := by
  subst h
  exact ⟨rfl, rfl⟩

/-- C7 witness: determinism and bundle preservation at the all-nominal
bundle. -/
theorem engine_deterministic_witness :
    run_logic_checks bundleNone = run_logic_checks bundleNone ∧
    run_logic_checks_st bundleNone = (run_logic_checks bundleNone, bundleNone) :=
  engine_deterministic bundleNone bundleNone rfl

/-- C8: Rule C's firing is monotone in `current_cpm`: raising
`current_cpm` while every other field (in particular `average_cpm`) is
held fixed can only turn Rule C's firing on, never off. -/
theorem ruleC_monotone (m : Metrics) (c : ℚ) (hle : m.current_cpm ≤ c)
    (hfires : ∃ a ∈ run_logic_checks m, a.Rule = "Rule C (CPM Spike)") :
    ∃ a ∈ run_logic_checks { m with current_cpm := c },
      a.Rule = "Rule C (CPM Spike)" := by
  rw [hasRuleC_iff] at hfires ⊢
  exact lt_of_lt_of_le hfires hle

/-- C8 witness: Rule C fires at CPM 160 against average 100, hence also
after raising the current CPM to 200. -/
theorem ruleC_monotone_witness :
    ∃ a ∈ run_logic_checks { bundleC with current_cpm := 200 },
      a.Rule = "Rule C (CPM Spike)" :=
  ruleC_monotone bundleC 200 (by decide)
    ((hasRuleC_iff bundleC).mpr (by norm_num [bundleC]))

/-- C9: with a zero `average_cpm` baseline Rule C fires exactly when
`current_cpm > 0`, and with a zero `average_ctr` baseline Rule D never
fires for a non-negative `current_ctr`: the engine keeps the literal
arithmetic, with no special-casing of zero baselines. -/
theorem degenerate_averages (m : Metrics) :
    (m.avg_cpm = 0 →
      ((∃ a ∈ run_logic_checks m, a.Rule = "Rule C (CPM Spike)") ↔
        0 < m.current_cpm)) ∧
    (m.avg_ctr = 0 → 0 ≤ m.current_ctr →
      ¬∃ a ∈ run_logic_checks m, a.Rule = "Rule D (CTR Drop)") := by
  constructor
  · intro h
    rw [hasRuleC_iff, h]
    simp
  · intro h h0 hD
    rw [hasRuleD_iff, h] at hD
    simp at hD
    exact absurd h0 (not_le.mpr hD)

/-- C9 witness: with both baselines zero, a positive current CPM fires
Rule C and a non-negative current CTR cannot fire Rule D. -/
theorem degenerate_averages_witness :
    (∃ a ∈ run_logic_checks bundleDeg, a.Rule = "Rule C (CPM Spike)") ∧
    ¬∃ a ∈ run_logic_checks bundleDeg, a.Rule = "Rule D (CTR Drop)" :=
  ⟨((degenerate_averages bundleDeg).1 rfl).mpr (by decide),
   (degenerate_averages bundleDeg).2 rfl (by decide)⟩

/-- C10: the engine is total on every bundle of finite numeric field
values — negative values and a zero `daily_budget` included, since the
statement quantifies over all of `ℚ` with no well-formedness
hypothesis — and always returns at most four alerts. -/
theorem engine_total (m : Metrics) : (run_logic_checks m).length ≤ 4 := by
  by_cases h1 : m.spend_last_4h > 5000 ∧ m.conv_last_4h = 0 <;>
  by_cases h2 : m.daily_spend > m.daily_budget * 1.2 <;>
  by_cases h3 : m.current_cpm > m.avg_cpm * 1.5 <;>
  by_cases h4 : m.current_ctr < m.avg_ctr * 0.5 <;>
  simp [run_logic_checks, h1, h2, h3, h4]
